import Mathlib

/-
Verification of the RecogX front end against its specification.

The development shallowly embeds the state management of the two React
components of the repository:

* `InstructionTab` — src/components/instruction-tab.tsx (task drafting,
  image attachment, submission, tracking captures, reset);
* `InstructionZero` / `DetectionTab` — the two components of the unnamed
  source file (task save/load/delete variant, and the webcam
  object-detection tab with its periodic capture loop).

JavaScript strings are modelled as `String`, JS numbers occurring in the
claims (box coordinates, confidences) as `ℚ` (the claims only compare
them and format them, never exercise float rounding pathologies), and
fallible HTTP calls as an `Except Unit α` argument: the component code is
a pure state transformer over the response outcome.  JS truthiness of a
possibly-absent string (`x || d`) is modelled explicitly below.
-/

/-- JS `x || d` where `x : string | undefined`: `d` when `x` is absent or
empty, else `x`. -/
def strOr (x : Option String) (d : String) : String :=
  match x with
  | some s => if s = "" then d else s
  | none => d

/-- JS `x || d` on two present strings. -/
def strOrS (x d : String) : String :=
  if x = "" then d else x

/-- JS falsiness of a possibly-absent string (`!x`). -/
def strFalsy (x : Option String) : Bool :=
  match x with
  | some s => s == ""
  | none => true

/-- JS `if (x) field = x` for an optional string: keeps only truthy values. -/
def jsStr (x : Option String) : Option String :=
  match x with
  | some s => if s = "" then none else some s
  | none => none

/-- JS `String.prototype.trim`: strips leading and trailing whitespace,
with `Char.isWhitespace` standing for the JS whitespace class.  Written on
the character list so that it evaluates inside the kernel. -/
def jsTrim (s : String) : String :=
  String.mk
    (((s.toList.dropWhile Char.isWhitespace).reverse.dropWhile Char.isWhitespace).reverse)

/-- `InstructionStep` from both instruction components:
`{ id: string, text: string, image?: string }`. -/
structure InstructionStep where
  id : String
  text : String
  image : Option String := none
deriving DecidableEq, Repr

/-- The initial draft of both instruction components:
`useState([{ id: "step-1", text: "" }])`. -/
def initialSteps : List InstructionStep :=
  [{ id := "step-1", text := "" }]

/-- `addInstructionStep` (identical in both instruction components):
`setInstructionSteps([...instructionSteps, { id: \x7bstep-${instructionSteps.length + 1}\x7d, text: "" }])`
— the fresh id is derived from the current length. -/
def addInstructionStep (steps : List InstructionStep) : List InstructionStep :=
  steps ++ [{ id := "step-" ++ toString (steps.length + 1), text := "" }]

/-- `removeInstructionStep` (both instruction components): a no-op when the
list has at most one step, otherwise `filter(step => step.id !== id)`. -/
def removeInstructionStep (target : String) (steps : List InstructionStep) :
    List InstructionStep :=
  if steps.length ≤ 1 then steps
  else steps.filter fun step => step.id != target

/-- The warning surfaced by instruction-tab.tsx when removal is refused:
`setError("You must have at least one instruction step")`. -/
def removeStepWarning (steps : List InstructionStep) : Option String :=
  if steps.length ≤ 1 then some "You must have at least one instruction step"
  else none

/-- `updateStepText` (both instruction components):
`map(step => step.id === id ? { ...step, text } : step)`. -/
def updateStepText (target text : String) (steps : List InstructionStep) :
    List InstructionStep :=
  steps.map fun step => if step.id = target then { step with text := text } else step

/-- One user action on the draft step list. -/
inductive StepOp where
  | add : StepOp
  | remove : String → StepOp

/-- Apply one draft action. -/
def applyStepOp (steps : List InstructionStep) : StepOp → List InstructionStep
  | .add => addInstructionStep steps
  | .remove target => removeInstructionStep target steps

/-- Run a sequence of add/remove actions from the initial single-step draft. -/
def runStepOps (ops : List StepOp) : List InstructionStep :=
  ops.foldl applyStepOp initialSteps

/-- The id-collision sequence: add a step, remove the first, add again. -/
def collisionOps : List StepOp :=
  [.add, .remove "step-1", .add]

/-- Removing at most one element by a nodup id keeps all but one step. -/
lemma length_le_filter_id_succ (target : String) :
    ∀ l : List InstructionStep, (l.map InstructionStep.id).Nodup →
      l.length ≤ (l.filter fun step => step.id != target).length + 1 := by
  intro l
  induction l with
  | nil => intro _; simp
  | cons a l ih =>
    intro h
    rw [List.map_cons, List.nodup_cons] at h
    by_cases ha : a.id = target
    · have hl : (l.filter fun step => step.id != target) = l := by
        apply List.filter_eq_self.mpr
        intro b hb
        have hb' : b.id ≠ target := by
          intro hbt
          exact h.1 (by
            rw [ha, ← hbt]
            exact List.mem_map_of_mem InstructionStep.id hb)
        simpa using hb'
      have hstep : ((a :: l).filter fun step => step.id != target) = l := by
        rw [List.filter_cons, if_neg (by simpa using ha), hl]
      rw [hstep]
      simp
    · have hstep : ((a :: l).filter fun step => step.id != target) =
          a :: (l.filter fun step => step.id != target) := by
        rw [List.filter_cons, if_pos (by simpa using ha)]
      rw [hstep]
      have := ih h.2
      simp only [List.length_cons]
      omega

/-- Claim C2 (code bug): after the sequence add, remove "step-1", add, the
draft holds two steps that share the id "step-2": the generated ids are not
unique, because the fresh id is computed from the current list length. -/
theorem c2_duplicate_step_ids_bug :
    (runStepOps collisionOps).map InstructionStep.id = ["step-2", "step-2"] ∧
    ((runStepOps collisionOps).map InstructionStep.id).count "step-2" = 2 := by
  decide

/-- Claim C1 (counterexample): on the reachable draft holding two steps that
both carry the id "step-2", removing "step-2" empties the list — removal can
leave fewer than one step even though the list had two. -/
theorem c1_remove_can_empty_list_cex :
    (runStepOps collisionOps).length = 2 ∧
    removeInstructionStep "step-2" (runStepOps collisionOps) = [] := by
  decide

/-- Claim C1 (amended): for every draft whose step ids are pairwise distinct,
removal never leaves the list below one step; on a single-step list the call
is a no-op and surfaces the warning. -/
theorem c1_remove_keeps_list_nonempty (target : String)
    (steps : List InstructionStep)
    (hlen : 1 ≤ steps.length)
    (hids : (steps.map InstructionStep.id).Nodup) :
    (steps.length = 1 →
      removeInstructionStep target steps = steps ∧
      removeStepWarning steps = some "You must have at least one instruction step") ∧
    1 ≤ (removeInstructionStep target steps).length := by
  constructor
  · intro h1
    unfold removeInstructionStep removeStepWarning
    rw [if_pos (by omega), if_pos (by omega)]
    exact ⟨rfl, rfl⟩
  · by_cases hle : steps.length ≤ 1
    · unfold removeInstructionStep
      rw [if_pos hle]
      exact hlen
    · unfold removeInstructionStep
      rw [if_neg hle]
      have := length_le_filter_id_succ target steps hids
      omega

/-- Claim C1, witness: the amended theorem evaluated on a concrete two-step
draft with distinct ids. -/
theorem c1_remove_keeps_list_nonempty_wit :
    1 ≤ (removeInstructionStep "step-1"
      [{ id := "step-1", text := "a" }, { id := "step-2", text := "b" }]).length :=
  (c1_remove_keeps_list_nonempty "step-1"
    [{ id := "step-1", text := "a" }, { id := "step-2", text := "b" }]
    (by decide) (by decide)).2

namespace InstructionTab

/-- `ResponseItem` from instruction-tab.tsx. -/
structure ResponseItem where
  id : String
  timestamp : String
  text : Option String := none
  image : Option String := none
deriving DecidableEq, Repr

/-- The client state of the instruction tab (src/components/instruction-tab.tsx).
`hasStream` models whether `videoRef.current.srcObject` is bound; the other
fields are the `useState` hooks of the component, with their initial values
as defaults. -/
structure State where
  taskTitle : String := ""
  instructionSteps : List InstructionStep := initialSteps
  isTaskSubmitted : Bool := false
  isSubmittingTask : Bool := false
  isWebcamActive : Bool := false
  isCapturing : Bool := false
  hasStream : Bool := false
  responses : List ResponseItem := []
  error : Option String := none
  success : Option String := none
deriving DecidableEq, Repr

/-- `stopWebcam`: only acts when a stream is bound to the video element;
it stops the tracks, unbinds the stream and clears the active flag. -/
def stopWebcam (s : State) : State :=
  if s.hasStream then { s with hasStream := false, isWebcamActive := false } else s

/-- `resetEverything`: POSTs `/reset/`; on a non-2xx status or network error
only the error banner is set; on success the draft, submitted flag and
response log return to their initial values, a success banner is shown, and
the webcam is stopped when active. -/
def resetEverything (s : State) (http : Except Unit Unit) : State :=
  match http with
  | .error _ => { s with error := some "Failed to reset task. Please try again." }
  | .ok _ =>
    let s1 : State := { s with
      taskTitle := ""
      instructionSteps := initialSteps
      isTaskSubmitted := false
      responses := []
      error := none
      success := some "Task reset successfully" }
    if s1.isWebcamActive then stopWebcam s1 else s1

/-- The selected file of an `<input type="file">` change event: its byte
size and the base64 data URL the `FileReader` would produce. -/
structure UploadFile where
  size : ℕ
  dataURL : String
deriving DecidableEq, Repr

/-- `handleImageUpload`: rejects files over `5 * 1024 * 1024` bytes with an
error banner, otherwise stores the encoded image on the step with the
given id. -/
def handleImageUpload (s : State) (target : String) (file : UploadFile) : State :=
  if file.size > 5 * 1024 * 1024 then
    { s with error := some "Image size must be less than 5MB" }
  else
    { s with instructionSteps := s.instructionSteps.map fun step =>
        if step.id = target then { step with image := some file.dataURL } else step }

/-- `removeStepImage`: clears the image of the step with the given id. -/
def removeStepImage (s : State) (target : String) : State :=
  { s with instructionSteps := s.instructionSteps.map fun step =>
      if step.id = target then { step with image := none } else step }

/-- The JSON body of a successful `/instruction/setup/` reply. -/
structure SetupResponse where
  message : Option String := none
deriving DecidableEq, Repr

/-- `submitTaskInstructions`: validates that the trimmed title and every
trimmed step text are non-empty before the POST; a validation failure sets
the error banner and returns without a network call.  The second component
records whether the HTTP request was issued. -/
def submitTaskInstructions (s : State) (nowMs : ℕ) (timeStr : String)
    (http : Except Unit SetupResponse) : State × Bool :=
  if jsTrim s.taskTitle = "" then
    ({ s with error := some "Please provide a task title" }, false)
  else if s.instructionSteps.any fun step => jsTrim step.text == "" then
    ({ s with error := some "All instruction steps must have text" }, false)
  else
    match http with
    | .error _ =>
      ({ s with
          error := some "Failed to submit task instructions. Please try again."
          success := none
          isSubmittingTask := false }, true)
    | .ok data =>
      let s1 : State := { s with
        error := none
        success := some "Task instructions submitted successfully! You can now use the webcam."
        isTaskSubmitted := true
        isSubmittingTask := false }
      match jsStr data.message with
      | some m =>
        ({ s1 with responses :=
            [{ id := "response-" ++ toString nowMs, timestamp := timeStr, text := some m }] }, true)
      | none => (s1, true)

/-- The JSON body of a successful `/instruction/instruction/` reply. -/
structure TrackResponse where
  result : Option String := none
  image_url : Option String := none
deriving DecidableEq, Repr

/-- `captureAndSendImage` with the video and canvas refs mounted and a 2d
context available: draws the frame, POSTs it, and either prepends a
response item (success) or sets the error banner (failure); the
`isCapturing` flag is raised for the duration of the call and cleared in
the `finally` block. -/
def captureAndSendImage (s : State) (nowMs : ℕ) (timeStr : String)
    (http : Except Unit TrackResponse) : State :=
  match http with
  | .error _ =>
    { s with error := some "Failed to send image. Please try again.", isCapturing := false }
  | .ok data =>
    let item : ResponseItem :=
      { id := "response-" ++ toString nowMs, timestamp := timeStr,
        text := jsStr data.result, image := jsStr data.image_url }
    { s with error := none, isCapturing := false, responses := item :: s.responses }

end InstructionTab

namespace InstructionZero

/-- `Task` from the unnamed instruction component: `{id, title, steps[]}`. -/
structure Task where
  id : String
  title : String
  steps : List String
deriving DecidableEq, Repr

/-- The client state of the unnamed instruction component (save/load/delete
variant). -/
structure State where
  taskTitle : String := ""
  instructionSteps : List InstructionStep := initialSteps
  tasks : List Task := []
  isSubmittingTask : Bool := false
  isSavingTask : Bool := false
deriving DecidableEq, Repr

/-- The step list built by `loadTask`:
`task.steps.map((step, index) => ({ id: step-(index+1), text: step }))`,
written as a recursion on the list carrying the index. -/
def stepsFrom (texts : List String) (idx : ℕ) : List InstructionStep :=
  match texts with
  | [] => []
  | t :: rest => { id := "step-" ++ toString (idx + 1), text := t } :: stepsFrom rest (idx + 1)

/-- `loadTask`: replaces the draft title and step list wholesale from a
fetched task; loaded steps carry no image. -/
def loadTask (s : State) (task : Task) : State :=
  { s with taskTitle := task.title, instructionSteps := stepsFrom task.steps 0 }

/-- `submitTaskInstructions` of the unnamed instruction component: the same
validation as the tab variant, with outcomes surfaced through `alert`.
Returns the new state, whether the HTTP request was issued, and the alert
message. -/
def submitTaskInstructions (s : State) (http : Except Unit Unit) :
    State × Bool × Option String :=
  if jsTrim s.taskTitle = "" then
    (s, false, some "Please provide a task title")
  else if s.instructionSteps.any fun step => jsTrim step.text == "" then
    (s, false, some "All instruction steps must have text")
  else
    match http with
    | .error _ =>
      ({ s with isSubmittingTask := false }, true,
        some "Failed to submit task instructions. Please try again.")
    | .ok _ =>
      ({ s with isSubmittingTask := false }, true,
        some "Task instructions submitted successfully!")

end InstructionZero

/-- The texts of the loaded steps are exactly the steps of the task. -/
lemma stepsFrom_map_text :
    ∀ (texts : List String) (idx : ℕ),
      (InstructionZero.stepsFrom texts idx).map InstructionStep.text = texts := by
  intro texts
  induction texts with
  | nil => intro _; rfl
  | cons t rest ih =>
    intro idx
    simp [InstructionZero.stepsFrom, ih (idx + 1)]

/-- Every loaded step carries no image. -/
lemma stepsFrom_no_image :
    ∀ (texts : List String) (idx : ℕ),
      ((InstructionZero.stepsFrom texts idx).all fun step => step.image.isNone) = true := by
  intro texts
  induction texts with
  | nil => intro _; rfl
  | cons t rest ih =>
    intro idx
    simp [InstructionZero.stepsFrom, ih (idx + 1)]

/-- One loaded step per task step. -/
lemma stepsFrom_length :
    ∀ (texts : List String) (idx : ℕ),
      (InstructionZero.stepsFrom texts idx).length = texts.length := by
  intro texts
  induction texts with
  | nil => intro _; rfl
  | cons t rest ih =>
    intro idx
    simp [InstructionZero.stepsFrom, ih (idx + 1)]

/-- Claim C8 (confirmed): `loadTask` replaces the draft title with the
task title and the step list with one image-less step per task step, in
order and with the same texts; on the "Make tea" example it yields the two
expected steps. -/
theorem c8_loadTask_replaces_draft (s : InstructionZero.State)
    (task : InstructionZero.Task) :
    (InstructionZero.loadTask s task).taskTitle = task.title ∧
    ((InstructionZero.loadTask s task).instructionSteps.map InstructionStep.text) = task.steps ∧
    ((InstructionZero.loadTask s task).instructionSteps.all fun step => step.image.isNone) = true ∧
    (InstructionZero.loadTask s task).instructionSteps.length = task.steps.length ∧
    (InstructionZero.loadTask {} ⟨"t1", "Make tea", ["Boil water", "Pour into cup"]⟩).taskTitle
      = "Make tea" ∧
    (InstructionZero.loadTask {} ⟨"t1", "Make tea", ["Boil water", "Pour into cup"]⟩).instructionSteps
      = [{ id := "step-1", text := "Boil water" }, { id := "step-2", text := "Pour into cup" }] :=
  ⟨rfl, stepsFrom_map_text task.steps 0, stepsFrom_no_image task.steps 0,
    stepsFrom_length task.steps 0, rfl, by decide⟩

/-- Claim C3 (confirmed): in both instruction components, a draft whose
trimmed title is empty or that holds a step with empty trimmed text is
rejected by submit: no HTTP request is issued, a validation message is
surfaced, and the draft state is unchanged (in the tab component only the
error banner is written). -/
theorem c3_submit_validation_blocks_network
    (s : InstructionTab.State) (nowMs : ℕ) (timeStr : String)
    (http : Except Unit InstructionTab.SetupResponse)
    (s0 : InstructionZero.State) (http0 : Except Unit Unit)
    (h : jsTrim s.taskTitle = "" ∨ ∃ step ∈ s.instructionSteps, jsTrim step.text = "")
    (h0 : jsTrim s0.taskTitle = "" ∨ ∃ step ∈ s0.instructionSteps, jsTrim step.text = "") :
    ((InstructionTab.submitTaskInstructions s nowMs timeStr http).2 = false ∧
      ∃ msg, (InstructionTab.submitTaskInstructions s nowMs timeStr http).1 =
        { s with error := some msg }) ∧
    ((InstructionZero.submitTaskInstructions s0 http0).2.1 = false ∧
      (InstructionZero.submitTaskInstructions s0 http0).1 = s0 ∧
      ((InstructionZero.submitTaskInstructions s0 http0).2.2).isSome = true) := by
  constructor
  · unfold InstructionTab.submitTaskInstructions
    by_cases ht : jsTrim s.taskTitle = ""
    · rw [if_pos ht]
      exact ⟨rfl, "Please provide a task title", rfl⟩
    · rcases h with h | ⟨step, hmem, hstep⟩
      · exact absurd h ht
      · have hany : (s.instructionSteps.any fun step => jsTrim step.text == "") = true :=
          List.any_eq_true.mpr ⟨step, hmem, by simpa using hstep⟩
        rw [if_neg ht, if_pos hany]
        exact ⟨rfl, "All instruction steps must have text", rfl⟩
  · unfold InstructionZero.submitTaskInstructions
    by_cases ht : jsTrim s0.taskTitle = ""
    · rw [if_pos ht]
      exact ⟨rfl, rfl, rfl⟩
    · rcases h0 with h0 | ⟨step, hmem, hstep⟩
      · exact absurd h0 ht
      · have hany : (s0.instructionSteps.any fun step => jsTrim step.text == "") = true :=
          List.any_eq_true.mpr ⟨step, hmem, by simpa using hstep⟩
        rw [if_neg ht, if_pos hany]
        exact ⟨rfl, rfl, rfl⟩

/-- Claim C3, witness: both submits evaluated on the initial draft, whose
title is empty. -/
theorem c3_submit_validation_blocks_network_wit :
    (InstructionTab.submitTaskInstructions {} 0 "10:00:00" (.ok {})).2 = false ∧
    (InstructionZero.submitTaskInstructions {} (.ok ())).2.1 = false := by
  have h := c3_submit_validation_blocks_network {} 0 "10:00:00" (.ok {}) {} (.ok ())
    (Or.inl (by decide)) (Or.inl (by decide))
  exact ⟨h.1.1, h.2.1⟩

/-- Claim C7 (confirmed): attaching a file larger than 5 * 1024 * 1024 bytes
to any step only sets the error banner: the whole step list — in particular
the image field of every step — is left exactly as it was. -/
theorem c7_oversized_image_rejected (s : InstructionTab.State) (target : String)
    (file : InstructionTab.UploadFile) (h : 5 * 1024 * 1024 < file.size) :
    InstructionTab.handleImageUpload s target file =
      { s with error := some "Image size must be less than 5MB" } := by
  unfold InstructionTab.handleImageUpload
  rw [if_pos h]

/-- Claim C7, witness: a 5MB + 1 byte file on the initial draft. -/
theorem c7_oversized_image_rejected_wit :
    5 * 1024 * 1024 < (5242881 : ℕ) ∧
    InstructionTab.handleImageUpload {} "step-1" { size := 5242881, dataURL := "d" } =
      { ({} : InstructionTab.State) with error := some "Image size must be less than 5MB" } :=
  ⟨by decide,
    c7_oversized_image_rejected {} "step-1" { size := 5242881, dataURL := "d" } (by decide)⟩

/-- Claim C10 (confirmed): when the `/reset/` POST succeeds, the tab returns
to its initial client state (empty title, the single empty step "step-1",
submitted flag down, empty response log) and the webcam ends up inactive;
when the POST fails, the only change is the error banner. -/
theorem c10_reset_restores_initial_state (s : InstructionTab.State)
    (h : s.isWebcamActive = true → s.hasStream = true) :
    ((InstructionTab.resetEverything s (.ok ())).taskTitle = "" ∧
      (InstructionTab.resetEverything s (.ok ())).instructionSteps = [{ id := "step-1", text := "" }] ∧
      (InstructionTab.resetEverything s (.ok ())).isTaskSubmitted = false ∧
      (InstructionTab.resetEverything s (.ok ())).responses = [] ∧
      (InstructionTab.resetEverything s (.ok ())).error = none ∧
      (InstructionTab.resetEverything s (.ok ())).success = some "Task reset successfully" ∧
      (InstructionTab.resetEverything s (.ok ())).isWebcamActive = false) ∧
    InstructionTab.resetEverything s (.error ()) =
      { s with error := some "Failed to reset task. Please try again." } := by
  constructor
  · cases hw : s.isWebcamActive with
    | true =>
      have hs := h hw
      simp [InstructionTab.resetEverything, InstructionTab.stopWebcam, hw, hs, initialSteps]
    | false =>
      simp [InstructionTab.resetEverything, InstructionTab.stopWebcam, hw, initialSteps]
  · rfl

/-- Claim C10, witness: reset on a dirty state with the webcam running. -/
theorem c10_reset_restores_initial_state_wit :
    (InstructionTab.resetEverything
      { taskTitle := "T", isTaskSubmitted := true, isWebcamActive := true, hasStream := true }
      (.ok ())).taskTitle = "" ∧
    (InstructionTab.resetEverything
      { taskTitle := "T", isTaskSubmitted := true, isWebcamActive := true, hasStream := true }
      (.ok ())).isWebcamActive = false :=
  ⟨(c10_reset_restores_initial_state
      { taskTitle := "T", isTaskSubmitted := true, isWebcamActive := true, hasStream := true }
      (by decide)).1.1,
    (c10_reset_restores_initial_state
      { taskTitle := "T", isTaskSubmitted := true, isWebcamActive := true, hasStream := true }
      (by decide)).1.2.2.2.2.2.2⟩

namespace DetectionTab

/-- The `performance_metrics` object a detect reply may carry. -/
structure PerfFields where
  summary : Option String := none
  preprocess : Option String := none
  inference : Option String := none
  postprocess : Option String := none
  image_shape : Option String := none
deriving DecidableEq, Repr

/-- `PerformanceMetrics` as displayed by the detection tab. -/
structure PerformanceMetrics where
  summary : String
  preprocess : String
  inference : String
  postprocess : String
  imageShape : String
  timestamp : String
deriving DecidableEq, Repr

/-- The JSON body of a `/yolo/detect/` reply: every field may be absent. -/
structure DetectData where
  bounding_boxes : Option (List (ℚ × ℚ × ℚ × ℚ)) := none
  confidences : Option (List ℚ) := none
  classes : Option (List String) := none
  performance_metrics : Option PerfFields := none
  summary : Option String := none
deriving DecidableEq, Repr

/-- Greedy match of the regex number token `\d+\.?\d*` at the head of the
character list: one or more digits, an optional dot, then more digits.
Returns the matched text and the rest.  (The token is always followed by
the literal letter m in the pattern below, so greedy matching without
backtracking is exact.) -/
def matchNum (cs : List Char) : Option (String × List Char) :=
  let p := cs.span Char.isDigit
  if p.1.isEmpty then none
  else
    match p.2 with
    | '.' :: rest =>
      let q := rest.span Char.isDigit
      some (String.mk (p.1 ++ '.' :: q.1), q.2)
    | rest => some (String.mk p.1, rest)

/-- Match a literal character sequence at the head of the list. -/
def matchLit (lit cs : List Char) : Option (List Char) :=
  if cs.take lit.length = lit then some (cs.drop lit.length) else none

/-- Match the whole timing pattern
`(\d+\.?\d*)ms preprocess, (\d+\.?\d*)ms inference, (\d+\.?\d*)ms postprocess`
at the head of the list, returning the three captures. -/
def matchSpeedAt (cs : List Char) : Option (String × String × String) := do
  let (n1, cs) ← matchNum cs
  let cs ← matchLit "ms preprocess, ".toList cs
  let (n2, cs) ← matchNum cs
  let cs ← matchLit "ms inference, ".toList cs
  let (n3, cs) ← matchNum cs
  let _ ← matchLit "ms postprocess".toList cs
  pure (n1, n2, n3)

/-- Leftmost search of the timing pattern, as `String.prototype.match`
performs it. -/
def speedSearch : List Char → Option (String × String × String)
  | [] => matchSpeedAt []
  | c :: rest =>
    match matchSpeedAt (c :: rest) with
    | some r => some r
    | none => speedSearch rest

/-- `summary.match(<timing regex>)`, reduced to its three captures. -/
def speedMatch (s : String) : Option (String × String × String) :=
  speedSearch s.toList

/-- The shape pattern of the source is written `shape $$([^)]+)$$`, where
`$` is the end-of-input anchor; an anchor followed by a mandatory
character class matches no string at all, so this match is always `none`. -/
def shapeMatch (_s : String) : Option String :=
  none

/-- `parsePerformanceMetrics`: null when neither `performance_metrics` nor
`summary` is present; otherwise the structured fields with the defaults
`"0ms"` / `""`, and the regex fallback branch exactly as the source wrote
it (each timing assignment is guarded by `preprocess = preprocess || ...`,
so it only fires when the field is still falsy). -/
def parsePerformanceMetrics (data : DetectData) (now : String) :
    Option PerformanceMetrics :=
  if data.performance_metrics.isNone && strFalsy data.summary then none
  else
    let metrics := data.performance_metrics.getD {}
    let summary := strOr metrics.summary (strOr data.summary "")
    let preprocess := strOr metrics.preprocess "0ms"
    let inference := strOr metrics.inference "0ms"
    let postprocess := strOr metrics.postprocess "0ms"
    let imageShape := strOr metrics.image_shape ""
    if summary != "" &&
        (preprocess == "" || inference == "" || postprocess == "" || imageShape == "") then
      let speedRes := speedMatch summary
      let shapeRes := shapeMatch summary
      let preprocess := match speedRes with
        | some r => strOrS preprocess (r.1 ++ "ms")
        | none => preprocess
      let inference := match speedRes with
        | some r => strOrS inference (r.2.1 ++ "ms")
        | none => inference
      let postprocess := match speedRes with
        | some r => strOrS postprocess (r.2.2 ++ "ms")
        | none => postprocess
      let imageShape := match shapeRes with
        | some sh => strOrS imageShape sh
        | none => imageShape
      some ⟨summary, preprocess, inference, postprocess, imageShape, now⟩
    else
      some ⟨summary, preprocess, inference, postprocess, imageShape, now⟩

/-- A detected object as the tab builds it from a reply (after the
defaulting of confidence and class, so `cls` is always present). -/
structure DetectedObject where
  id : ℕ
  box : ℚ × ℚ × ℚ × ℚ
  confidence : ℚ
  cls : String
deriving DecidableEq, Repr

/-- `boundingBoxes.map((box, index) => ({...}))` with the source defaults
`confidences[index] || 0` and `classes[index] || "Unknown"`. -/
def mkObjectsAux (confidences : List ℚ) (classes : List String) :
    ℕ → List (ℚ × ℚ × ℚ × ℚ) → List DetectedObject
  | _, [] => []
  | i, box :: rest =>
    { id := i + 1, box := box,
      confidence := confidences.getD i 0,
      cls := strOrS (classes.getD i "Unknown") "Unknown" } ::
      mkObjectsAux confidences classes (i + 1) rest

/-- The objects array built from a reply, with the source defaults
`data.bounding_boxes || []`, `data.confidences || boxes.map(() => 0.0)`,
`data.classes || boxes.map(() => "Unknown")`. -/
def mkDetectedObjects (data : DetectData) : List DetectedObject :=
  let boundingBoxes := data.bounding_boxes.getD []
  let confidences := data.confidences.getD (boundingBoxes.map fun _ => 0)
  let classes := data.classes.getD (boundingBoxes.map fun _ => "Unknown")
  mkObjectsAux confidences classes 0 boundingBoxes

/-- The annotation label:
`obj.class !== "Unknown" ? <class> <(confidence*100).toFixed(0)>% : Object <id> <(confidence*100).toFixed(0)>%`.
`toFixed(0)` on the non-negative confidences is rounding half up, which is
`round` on `ℚ`. -/
def labelFor (cls : String) (oid : ℕ) (conf : ℚ) : String :=
  if cls != "Unknown" then
    cls ++ " " ++ toString (round (conf * 100)) ++ "%"
  else
    "Object " ++ toString oid ++ " " ++ toString (round (conf * 100)) ++ "%"

/-- The label baseline: `y1 > 20 ? y1 - 5 : y1 + 20`. -/
def labelPosY (y1 : ℚ) : ℚ :=
  if y1 > 20 then y1 - 5 else y1 + 20

/-- One draw command of the annotation loop: the stroked rectangle and the
label text with its position. -/
structure DrawCmd where
  x1 : ℚ
  y1 : ℚ
  width : ℚ
  height : ℚ
  label : String
  labelX : ℚ
  labelY : ℚ
deriving DecidableEq, Repr

/-- The body of `objects.forEach(...)`: rectangle from the box corners,
label text, label drawn at `(x1, y1 > 20 ? y1 - 5 : y1 + 20)`. -/
def drawObject (obj : DetectedObject) : DrawCmd :=
  { x1 := obj.box.1
    y1 := obj.box.2.1
    width := obj.box.2.2.1 - obj.box.1
    height := obj.box.2.2.2 - obj.box.2.1
    label := labelFor obj.cls obj.id obj.confidence
    labelX := obj.box.1
    labelY := labelPosY obj.box.2.1 }

/-- The annotation overlay drawn onto the annotated canvas. -/
def renderAnnotations (objs : List DetectedObject) : List DrawCmd :=
  objs.map drawObject

/-- The client state of the detection tab; `returnedImage` holds the draw
commands of the annotated frame in place of its JPEG data URL. -/
structure State where
  backendUrl : String := "https://api.web-present.be/yolo/detect/"
  returnedImage : Option (List DrawCmd) := none
  error : Option String := none
  detectedObjects : List DetectedObject := []
  captureInterval : ℕ := 2000
  performanceMetrics : Option PerformanceMetrics := none
  lastProcessedTime : Option String := none
  isStreaming : Bool := false
deriving DecidableEq, Repr

/-- `captureAndSendFrame` with the video and canvas refs mounted: after the
guard on the backend URL it records the capture time, then either sets only
the error banner (failed call) or replaces the detected objects, the
annotated frame and — when parseable — the performance metrics.  Note that
`setLastProcessedTime` runs before the request is sent. -/
def captureAndSendFrame (s : State) (now : String) (http : Except Unit DetectData) :
    State :=
  if s.backendUrl = "" then s
  else
    let s1 : State := { s with lastProcessedTime := some now }
    match http with
    | .error _ => { s1 with error := some "Failed to send or receive frame from backend." }
    | .ok data =>
      let objects := mkDetectedObjects data
      let s2 : State :=
        match parsePerformanceMetrics data now with
        | some m => { s1 with performanceMetrics := some m }
        | none => s1
      { s2 with
          detectedObjects := objects
          returnedImage := some (renderAnnotations objects)
          error := none }

/-- The webcam/timer lifecycle state of the detection tab: whether a stream
is bound to the video element, the streaming flag, the registered interval
(`intervalRef.current`), and how many capture requests the interval
callback has issued. -/
structure CamState where
  hasStream : Bool := false
  isStreaming : Bool := false
  timer : Option ℕ := none
  sent : ℕ := 0
deriving DecidableEq, Repr

/-- `startFrameCapture`: clears any registered interval and registers a new
one with the current capture interval. -/
def startFrameCapture (s : CamState) (interval : ℕ) : CamState :=
  { s with timer := some interval }

/-- A successful `startWebcam`: binds the stream, raises the streaming
flag, then calls `startFrameCapture`. -/
def startWebcamOk (s : CamState) (interval : ℕ) : CamState :=
  startFrameCapture { s with hasStream := true, isStreaming := true } interval

/-- `stopWebcam`: when a stream is bound, stops its tracks, unbinds it,
lowers the streaming flag and clears the interval; otherwise a no-op. -/
def stopWebcam (s : CamState) : CamState :=
  if s.hasStream then
    { s with hasStream := false, isStreaming := false, timer := none }
  else s

/-- One elapse of the interval: the callback (`captureAndSendFrame`) runs —
and issues one HTTP request — exactly when an interval is registered. -/
def timerTick (s : CamState) : CamState :=
  match s.timer with
  | some _ => { s with sent := s.sent + 1 }
  | none => s

/-- The lifecycle states reachable from the initial render. -/
inductive Reach : CamState → Prop where
  | init : Reach {}
  | start (s : CamState) (i : ℕ) : Reach s → Reach (startWebcamOk s i)
  | stop (s : CamState) : Reach s → Reach (stopWebcam s)
  | tick (s : CamState) : Reach s → Reach (timerTick s)

end DetectionTab

/-- A tick never changes the registered interval. -/
lemma timerTick_timer (s : DetectionTab.CamState) :
    (DetectionTab.timerTick s).timer = s.timer := by
  unfold DetectionTab.timerTick
  cases h : s.timer <;> simp [h]

/-- A tick never changes the stream binding. -/
lemma timerTick_hasStream (s : DetectionTab.CamState) :
    (DetectionTab.timerTick s).hasStream = s.hasStream := by
  unfold DetectionTab.timerTick
  cases s.timer <;> rfl

/-- With no registered interval, a tick does nothing at all. -/
lemma timerTick_of_none (s : DetectionTab.CamState) (h : s.timer = none) :
    DetectionTab.timerTick s = s := by
  unfold DetectionTab.timerTick
  rw [h]

/-- Invariant of the reachable lifecycle states: an interval is only ever
registered while a stream is bound. -/
lemma reach_timer_stream {s : DetectionTab.CamState} (h : DetectionTab.Reach s) :
    s.timer.isSome = true → s.hasStream = true := by
  induction h with
  | init => intro hx; simp [Option.isSome] at hx
  | start s i _ _ => intro _; rfl
  | stop s _ ih =>
    intro ht
    unfold DetectionTab.stopWebcam at ht ⊢
    by_cases hs : s.hasStream = true
    · rw [if_pos hs] at ht
      simp [Option.isSome] at ht
    · rw [if_neg hs] at ht ⊢
      exact ih ht
  | tick s _ ih =>
    intro ht
    rw [timerTick_timer] at ht
    rw [timerTick_hasStream]
    exact ih ht

/-- Claim C4 (counterexample): on a failed detect call the displayed
last-processed timestamp does change — `setLastProcessedTime` runs before
the request is issued, so the failed attempt overwrites the previous
timestamp while the error banner is set. -/
theorem c4_failed_call_updates_timestamp_cex :
    (DetectionTab.captureAndSendFrame { lastProcessedTime := some "11:59:58" }
      "12:00:00" (.error ())).lastProcessedTime = some "12:00:00" ∧
    ({ lastProcessedTime := some "11:59:58" } : DetectionTab.State).lastProcessedTime =
      some "11:59:58" ∧
    (DetectionTab.captureAndSendFrame { lastProcessedTime := some "11:59:58" }
      "12:00:00" (.error ())).error =
      some "Failed to send or receive frame from backend." := by
  decide

/-- Claim C4 (amended): a failed HTTP call leaves all client state
unchanged apart from the error banner and the in-flight flag — except that
the detection capture additionally records the capture timestamp before
sending, so `lastProcessedTime` reflects the failed attempt.  Stated as
full-record equalities for the two capture operations the claim cites. -/
theorem c4_failure_changes_only_error_flag_and_timestamp
    (s : DetectionTab.State) (now : String)
    (t : InstructionTab.State) (nowMs : ℕ) (timeStr : String)
    (hurl : ¬ s.backendUrl = "") :
    DetectionTab.captureAndSendFrame s now (.error ()) =
      { s with
          lastProcessedTime := some now
          error := some "Failed to send or receive frame from backend." } ∧
    InstructionTab.captureAndSendImage t nowMs timeStr (.error ()) =
      { t with
          error := some "Failed to send image. Please try again."
          isCapturing := false } := by
  constructor
  · unfold DetectionTab.captureAndSendFrame
    rw [if_neg hurl]
  · rfl

/-- Claim C4, witness: the amended theorem on the initial states of both
tabs. -/
theorem c4_failure_changes_only_error_flag_and_timestamp_wit :
    DetectionTab.captureAndSendFrame {} "12:00:00" (.error ()) =
      { ({} : DetectionTab.State) with
          lastProcessedTime := some "12:00:00"
          error := some "Failed to send or receive frame from backend." } ∧
    InstructionTab.captureAndSendImage {} 0 "12:00:00" (.error ()) =
      { ({} : InstructionTab.State) with
          error := some "Failed to send image. Please try again."
          isCapturing := false } :=
  c4_failure_changes_only_error_flag_and_timestamp {} "12:00:00" {} 0 "12:00:00" (by decide)

/-- Claim C5 (counterexample): for an object without a real class the
rendered label shows the confidence as a rounded percentage, not the raw
confidence value: confidence 0.5 renders "Object 1 50%", which differs
from "Object 1 0.5%". -/
theorem c5_unknown_label_rounded_percent_cex :
    (DetectionTab.drawObject
      { id := 1, box := (10, 30, 50, 50), confidence := 1/2, cls := "Unknown" }).label =
      "Object 1 50%" ∧
    (("Object 1 50%" : String) == "Object 1 0.5%") = false := by
  constructor
  · show DetectionTab.labelFor "Unknown" 1 (1/2) = _
    have hr : round ((1 : ℚ)/2 * 100) = 50 := by norm_num [round_eq]
    unfold DetectionTab.labelFor
    rw [if_neg (by decide), hr]
    decide
  · decide

/-- Claim C5 (amended): a known class renders the label
"<class> <confidence*100 rounded>%", an object without a real class
renders "Object <id> <confidence*100 rounded>%"; the label is drawn at
y1 - 5 when y1 > 20 and at y1 + 20 otherwise, so the spec example (class
"cup", confidence 0.87, box top 10) renders "cup 87%" at y = 30. -/
theorem c5_annotation_label_and_position (cls : String) (oid : ℕ) (conf : ℚ)
    (box : ℚ × ℚ × ℚ × ℚ) (y : ℚ) (h : cls ≠ "Unknown") :
    (DetectionTab.drawObject
      { id := oid, box := box, confidence := conf, cls := cls }).label =
      cls ++ " " ++ toString (round (conf * 100)) ++ "%" ∧
    (DetectionTab.drawObject
      { id := oid, box := box, confidence := conf, cls := "Unknown" }).label =
      "Object " ++ toString oid ++ " " ++ toString (round (conf * 100)) ++ "%" ∧
    (20 < y → DetectionTab.labelPosY y = y - 5) ∧
    (y ≤ 20 → DetectionTab.labelPosY y = y + 20) ∧
    (DetectionTab.drawObject
      { id := 1, box := (10, 10, 50, 50), confidence := 87/100, cls := "cup" }).label =
      "cup 87%" ∧
    (DetectionTab.drawObject
      { id := 1, box := (10, 10, 50, 50), confidence := 87/100, cls := "cup" }).labelY =
      30 := by
  refine ⟨?_, ?_, ?_, ?_, ?_, ?_⟩
  · show DetectionTab.labelFor cls oid conf = _
    unfold DetectionTab.labelFor
    rw [if_pos (by simpa using h)]
  · show DetectionTab.labelFor "Unknown" oid conf = _
    unfold DetectionTab.labelFor
    rw [if_neg (by decide)]
  · intro hy
    unfold DetectionTab.labelPosY
    rw [if_pos hy]
  · intro hy
    unfold DetectionTab.labelPosY
    rw [if_neg (not_lt.mpr hy)]
  · show DetectionTab.labelFor "cup" 1 (87/100) = _
    have hr : round ((87 : ℚ)/100 * 100) = 87 := by norm_num [round_eq]
    unfold DetectionTab.labelFor
    rw [if_pos (by decide), hr]
    decide
  · show DetectionTab.labelPosY 10 = 30
    unfold DetectionTab.labelPosY
    rw [if_neg (by norm_num)]
    norm_num

/-- Claim C5, witness: the amended theorem on the spec example. -/
theorem c5_annotation_label_and_position_wit :
    (DetectionTab.drawObject
      { id := 1, box := (10, 10, 50, 50), confidence := 87/100, cls := "cup" }).label =
      "cup 87%" ∧
    (DetectionTab.drawObject
      { id := 1, box := (10, 10, 50, 50), confidence := 87/100, cls := "cup" }).labelY =
      30 :=
  ⟨(c5_annotation_label_and_position "cup" 1 (87/100) (10, 10, 50, 50) 10
      (by decide)).2.2.2.2.1,
    (c5_annotation_label_and_position "cup" 1 (87/100) (10, 10, 50, 50) 10
      (by decide)).2.2.2.2.2⟩

/-- The summary string of the C6 failing input, which matches the timing
grammar of the spec. -/
def speedSummary : String :=
  "3.5ms preprocess, 10.2ms inference, 1.1ms postprocess"

/-- Claim C6 (code bug): the summary matches the documented timing grammar
(the embedded regex search captures 3.5 / 10.2 / 1.1), yet the parsed
metrics still carry the "0ms" defaults for every timing field: because the
defaults are applied before the fallback test, the fallback can never
assign a timing field.  The null case (neither source present) does hold. -/
theorem c6_summary_fallback_dead_bug :
    DetectionTab.speedMatch speedSummary = some ("3.5", "10.2", "1.1") ∧
    DetectionTab.parsePerformanceMetrics { summary := some speedSummary } "12:00:00" =
      some { summary := speedSummary, preprocess := "0ms", inference := "0ms",
             postprocess := "0ms", imageShape := "", timestamp := "12:00:00" } ∧
    DetectionTab.parsePerformanceMetrics {} "12:00:00" = none := by
  decide

/-- Claim C9 (confirmed): from any reachable lifecycle state with the
capture interval registered, `stopWebcam` clears the interval, issues no
request itself, and however many interval periods elapse afterwards, no
further capture request is ever issued. -/
theorem c9_stop_webcam_cancels_ticks (s : DetectionTab.CamState)
    (hr : DetectionTab.Reach s) (ht : s.timer.isSome = true) :
    (DetectionTab.stopWebcam s).timer = none ∧
    (DetectionTab.stopWebcam s).sent = s.sent ∧
    ∀ n : ℕ, (DetectionTab.timerTick^[n] (DetectionTab.stopWebcam s)).sent = s.sent := by
  have hs : s.hasStream = true := reach_timer_stream hr ht
  have hstop : DetectionTab.stopWebcam s =
      { s with hasStream := false, isStreaming := false, timer := none } := by
    unfold DetectionTab.stopWebcam
    rw [if_pos hs]
  have hfix : DetectionTab.timerTick (DetectionTab.stopWebcam s) =
      DetectionTab.stopWebcam s :=
    timerTick_of_none _ (by rw [hstop])
  refine ⟨by rw [hstop], by rw [hstop], fun n => ?_⟩
  rw [Function.iterate_fixed hfix n, hstop]

/-- Claim C9, witness: start the webcam from the initial state, stop it,
and let three interval periods elapse: no request is issued. -/
theorem c9_stop_webcam_cancels_ticks_wit :
    (DetectionTab.stopWebcam (DetectionTab.startWebcamOk {} 2000)).timer = none ∧
    (DetectionTab.timerTick^[3]
      (DetectionTab.stopWebcam (DetectionTab.startWebcamOk {} 2000))).sent =
      (DetectionTab.startWebcamOk {} 2000).sent := by
  have h := c9_stop_webcam_cancels_ticks (DetectionTab.startWebcamOk {} 2000)
    (DetectionTab.Reach.start {} 2000 DetectionTab.Reach.init) (by decide)
  exact ⟨h.1, h.2.2 3⟩
